import Mathlib

/-!
Verification of the filter-and-aggregate core of `src/pro_8.py`
(shopping-behavior analytics dashboard).

The embedding translates the data-processing parts of the program:
  * one DataFrame row becomes a `Record`;
  * `apply_age_filter` (pro_8.py lines 186-198) and the sequential
    filters of `analyze_data` (lines 203-213) become list filters;
  * the pandas aggregations (`sum`, `mean`, `mode`, `groupby` +
    `size`/`sum`, `sort_values`, `head`, `nsmallest`, `value_counts`)
    become explicit list computations, documented at each definition.

Modelling conventions:
  * pandas `groupby(col)` iterates groups in ascending key order
    (`sort=True` is the default); we realise this with Mathlib's
    stable `List.insertionSort` over the deduplicated keys.
  * pandas `Series.sort_values(ascending=False)` computes an ascending
    argsort and reverses it; its default quicksort is unstable, so the
    order among tied values is unspecified.  The model picks one
    determinization (a stable ascending sort, reversed); theorems only
    assert facts that hold under every tie resolution, except on
    concrete lists so short that numpy argsort degenerates to its
    stable insertion sort, where the model is exact.
  * `DataFrame.nsmallest(n, col)` (default `keep := "first"`) is a
    stable ascending sort by `col` followed by `take n`.
  * a pandas `KeyError` raised by accessing an absent column is
    modelled with `Except.error`; code paths that test column
    presence (`'X' in df.columns`) branch on a `Schema` of booleans.
-/

namespace Pro8

/-- One row of the shopping-behavior DataFrame, after the load-time
cleaning (`dropna`, `Age` cast to int, purchase amount cast to float;
pro_8.py lines 19-24).  Monetary amounts and ratings are rationals. -/
structure Record where
  customerId : Nat
  gender : String
  age : Int
  category : String
  season : String
  itemPurchased : String
  color : String
  location : String
  purchaseAmount : ℚ
  reviewRating : ℚ
  previousPurchases : Nat
deriving DecidableEq, Repr

/-- The function `apply_age_filter(df, age_range)` of pro_8.py lines 186-198:
each named range keeps the rows whose `Age` satisfies the stated
bounds; any other string (including `"All"`) returns the frame. -/
def apply_age_filter (rows : List Record) (age_range : String) : List Record :=
  if age_range = "18-25" then rows.filter (fun r => decide (18 ≤ r.age) && decide (r.age ≤ 25))
  else if age_range = "26-35" then rows.filter (fun r => decide (26 ≤ r.age) && decide (r.age ≤ 35))
  else if age_range = "36-45" then rows.filter (fun r => decide (36 ≤ r.age) && decide (r.age ≤ 45))
  else if age_range = "46-60" then rows.filter (fun r => decide (46 ≤ r.age) && decide (r.age ≤ 60))
  else if age_range = "60+" then rows.filter (fun r => decide (60 < r.age))
  else rows

/-- The four filter selections (`gender_var`, `age_var`, `category_var`,
`season_var` comboboxes); `"All"` means unconstrained. -/
structure FilterSpec where
  gender : String
  ageRange : String
  category : String
  season : String
deriving DecidableEq, Repr

/-- The sequential filtering of `analyze_data` (pro_8.py lines 203-213):
each combobox value different from `"All"` contributes one filter,
applied in the order gender, age range, category, season. -/
def filterRecords (rows : List Record) (spec : FilterSpec) : List Record :=
  let f1 := if spec.gender ≠ "All" then rows.filter (fun r => r.gender == spec.gender) else rows
  let f2 := if spec.ageRange ≠ "All" then apply_age_filter f1 spec.ageRange else f1
  let f3 := if spec.category ≠ "All" then f2.filter (fun r => r.category == spec.category) else f2
  if spec.season ≠ "All" then f3.filter (fun r => r.season == spec.season) else f3

/-- The age predicate corresponding to `apply_age_filter`, as a single
boolean test on one record. -/
def matchesAge (age_range : String) (r : Record) : Bool :=
  if age_range = "18-25" then decide (18 ≤ r.age) && decide (r.age ≤ 25)
  else if age_range = "26-35" then decide (26 ≤ r.age) && decide (r.age ≤ 35)
  else if age_range = "36-45" then decide (36 ≤ r.age) && decide (r.age ≤ 45)
  else if age_range = "46-60" then decide (46 ≤ r.age) && decide (r.age ≤ 60)
  else if age_range = "60+" then decide (60 < r.age)
  else true

/-- The conjunction of the four active predicates of a `FilterSpec`,
grouped exactly as the sequential filter composition accumulates them. -/
def matchesSpec (spec : FilterSpec) (r : Record) : Bool :=
  (((spec.gender == "All" || r.gender == spec.gender) &&
    matchesAge spec.ageRange r) &&
    (spec.category == "All" || r.category == spec.category)) &&
    (spec.season == "All" || r.season == spec.season)

theorem string_beq_eq_false {s t : String} (h : ¬s = t) : (s == t) = false :=
  beq_eq_false_iff_ne.mpr h

theorem apply_age_filter_eq_filter (rows : List Record) (age_range : String) :
    apply_age_filter rows age_range = rows.filter (matchesAge age_range) := by
  unfold apply_age_filter matchesAge
  split_ifs <;> simp

theorem filterRecords_eq_filter (rows : List Record) (spec : FilterSpec) :
    filterRecords rows spec = rows.filter (matchesSpec spec) := by
  simp only [filterRecords, apply_age_filter_eq_filter]
  by_cases h1 : spec.gender = "All" <;> by_cases h2 : spec.ageRange = "All" <;>
    by_cases h3 : spec.category = "All" <;> by_cases h4 : spec.season = "All" <;>
    · simp only [h1, h2, h3, h4, ne_eq, not_true_eq_false, not_false_eq_true,
        if_true, if_false, ite_not, List.filter_filter]
      first
      | (apply List.filter_congr; intro x _;
         simp [matchesSpec, matchesAge, h1, h2, h3, h4, string_beq_eq_false, Bool.and_comm,
           Bool.and_left_comm, Bool.and_assoc])
      | (apply Eq.symm; apply List.filter_eq_self.mpr; intro x _;
         simp [matchesSpec, matchesAge, h1, h2, h3, h4, string_beq_eq_false])

/-- C1: the age-range filter keeps exactly the records whose age lies
in the stated closed interval: `18-25` keeps ages 18..25, `26-35`
keeps 26..35, `36-45` keeps 36..45, `46-60` keeps 46..60, and `60+`
keeps only ages strictly greater than 60 (so a record of age exactly
60 is kept by `46-60` and rejected by `60+`). -/
theorem age_filter_ranges (rows : List Record) (r : Record) :
    (r ∈ apply_age_filter rows "18-25" ↔ r ∈ rows ∧ 18 ≤ r.age ∧ r.age ≤ 25)
    ∧ (r ∈ apply_age_filter rows "26-35" ↔ r ∈ rows ∧ 26 ≤ r.age ∧ r.age ≤ 35)
    ∧ (r ∈ apply_age_filter rows "36-45" ↔ r ∈ rows ∧ 36 ≤ r.age ∧ r.age ≤ 45)
    ∧ (r ∈ apply_age_filter rows "46-60" ↔ r ∈ rows ∧ 46 ≤ r.age ∧ r.age ≤ 60)
    ∧ (r ∈ apply_age_filter rows "60+" ↔ r ∈ rows ∧ 60 < r.age) := by
  refine ⟨?_, ?_, ?_, ?_, ?_⟩ <;> simp [apply_age_filter, List.mem_filter]

/-- The `FilterSpec` with every combobox left at `"All"`. -/
def unconstrainedSpec : FilterSpec :=
  { gender := "All", ageRange := "All", category := "All", season := "All" }

/-- C6: a `FilterSpec` with all four criteria unconstrained returns the
entire input record set unchanged. -/
theorem filter_unconstrained (rows : List Record) :
    filterRecords rows unconstrainedSpec = rows := by
  simp [filterRecords, unconstrainedSpec]

/-- Load-time age bucketing (pro_8.py lines 27-29):
`pd.cut(df['Age'], bins=[0,25,35,45,55,65,100], labels=age_labels,
right=True, include_lowest=True)`.  The bins are right-closed, the
lowest bin additionally contains its left endpoint 0, and an age
outside `[0, 100]` falls in no bin (pandas stores NaN, here `none`). -/
def ageGroupLoad (age : Int) : Option String :=
  if 0 ≤ age ∧ age ≤ 25 then some "<25"
  else if 25 < age ∧ age ≤ 35 then some "25–35"
  else if 35 < age ∧ age ≤ 45 then some "35–45"
  else if 45 < age ∧ age ≤ 55 then some "45–55"
  else if 55 < age ∧ age ≤ 65 then some "55–65"
  else if 65 < age ∧ age ≤ 100 then some "65+"
  else none

/-- The fresh re-bucketing done inside `analyze_data` (line 229):
`pd.cut(filtered_df['Age'], ...)` with the identical `age_bins`,
`age_labels`, `right=True`, `include_lowest=True` arguments. -/
def currentAgeGroup (age : Int) : Option String :=
  if 0 ≤ age ∧ age ≤ 25 then some "<25"
  else if 25 < age ∧ age ≤ 35 then some "25–35"
  else if 35 < age ∧ age ≤ 45 then some "35–45"
  else if 45 < age ∧ age ≤ 55 then some "45–55"
  else if 55 < age ∧ age ≤ 65 then some "55–65"
  else if 65 < age ∧ age ≤ 100 then some "65+"
  else none

/-- The list `age_labels` of pro_8.py line 28, which is also the category order
of the resulting categorical column. -/
def age_labels : List String := ["<25", "25–35", "35–45", "45–55", "55–65", "65+"]

/-- Number of rows of `rows` whose freshly recomputed age bucket is
`label` (the value counts behind `mode()` on line 230). -/
def bucketCount (rows : List Record) (label : String) : Nat :=
  rows.countP (fun r => currentAgeGroup r.age == some label)

/-- Lines 228-232: if the load-time `'Age Group'` column has at least
one non-null value (`nunique() > 0`), the summary reports
`filtered_df['Current Age Group'].mode()[0]`, otherwise `"N/A"`
(here `none`).  `mode()` of a categorical drops NaN and returns the
modal values sorted in category order, so `mode()[0]` is the first
label of `age_labels` attaining the maximal bucket count. -/
def top_age_group (rows : List Record) : Option String :=
  if 0 < rows.countP (fun r => (ageGroupLoad r.age).isSome) then
    age_labels.find? (fun l => bucketCount rows l == (age_labels.map (bucketCount rows)).foldr max 0)
  else none

/-- Line 225: `filtered_df['Purchase Amount (USD)'].sum()`. -/
def total_sales (rows : List Record) : ℚ :=
  (rows.map (fun r => r.purchaseAmount)).sum

/-- Line 226: `filtered_df['Review Rating'].mean()` (the display-only
`round(..., 2)` is presentation formatting and not modelled). -/
def avg_rating (rows : List Record) : ℚ :=
  (rows.map (fun r => r.reviewRating)).sum / rows.length

/-- Comparison of grouped rows by count, used to model the ascending
argsort underlying `sort_values` on a counts series. -/
def cntLE (a b : String × Nat) : Prop := a.2 ≤ b.2

instance : DecidableRel cntLE := fun a b => inferInstanceAs (Decidable (a.2 ≤ b.2))

instance : IsTotal (String × Nat) cntLE := ⟨fun a b => Nat.le_total a.2 b.2⟩

instance : IsTrans (String × Nat) cntLE := ⟨fun _ _ _ h h' => Nat.le_trans h h'⟩

/-- Comparison of grouped rows by a rational aggregate (the location
sales sums). -/
def ratLE (a b : String × ℚ) : Prop := a.2 ≤ b.2

instance : DecidableRel ratLE := fun a b => inferInstanceAs (Decidable (a.2 ≤ b.2))

instance : IsTotal (String × ℚ) ratLE := ⟨fun a b => le_total a.2 b.2⟩

instance : IsTrans (String × ℚ) ratLE := ⟨fun _ _ _ h h' => le_trans h h'⟩

/-- Comparison of records by `Previous Purchases`, the sort key of
`nsmallest(15, 'Previous Purchases')`. -/
def prevLE (a b : Record) : Prop := a.previousPurchases ≤ b.previousPurchases

instance : DecidableRel prevLE := fun a b =>
  inferInstanceAs (Decidable (a.previousPurchases ≤ b.previousPurchases))

instance : IsTotal Record prevLE := ⟨fun a b => Nat.le_total a.previousPurchases b.previousPurchases⟩

instance : IsTrans Record prevLE := ⟨fun _ _ _ h h' => Nat.le_trans h h'⟩

/-- Boolean lexicographic comparison of character lists by code
point: the string order Python (and hence pandas key sorting) uses. -/
def charListLeb : List Char → List Char → Bool
  | [], _ => true
  | _ :: _, [] => false
  | a :: as, b :: bs =>
    if a.toNat < b.toNat then true
    else if b.toNat < a.toNat then false
    else charListLeb as bs

/-- Lexicographic order on strings, kept explicitly computable. -/
def strLE (a b : String) : Prop := charListLeb a.data b.data = true

instance : DecidableRel strLE := fun a b =>
  inferInstanceAs (Decidable (charListLeb a.data b.data = true))

theorem charListLeb_total : ∀ as bs : List Char,
    charListLeb as bs = true ∨ charListLeb bs as = true
  | [], _ => Or.inl rfl
  | _ :: _, [] => Or.inr rfl
  | a :: as, b :: bs => by
    unfold charListLeb
    by_cases hab : a.toNat < b.toNat
    · exact Or.inl (by simp only [if_pos hab])
    · by_cases hba : b.toNat < a.toNat
      · exact Or.inr (by simp only [if_pos hba])
      · simp only [if_neg hab, if_neg hba]
        exact charListLeb_total as bs

theorem charListLeb_trans : ∀ as bs cs : List Char,
    charListLeb as bs = true → charListLeb bs cs = true → charListLeb as cs = true
  | [], _, _, _, _ => rfl
  | _ :: _, [], _, h, _ => by simp [charListLeb] at h
  | _ :: _, _ :: _, [], _, h => by simp [charListLeb] at h
  | a :: as, b :: bs, c :: cs, h1, h2 => by
    unfold charListLeb at h1 h2 ⊢
    by_cases hab : a.toNat < b.toNat <;> by_cases hbc : b.toNat < c.toNat
    · rw [if_pos (by omega)]
    · by_cases hcb : c.toNat < b.toNat
      · rw [if_neg hbc, if_pos hcb] at h2
        simp at h2
      · rw [if_pos (by omega)]
    · by_cases hba : b.toNat < a.toNat
      · rw [if_neg hab, if_pos hba] at h1
        simp at h1
      · rw [if_pos (by omega)]
    · by_cases hba : b.toNat < a.toNat
      · rw [if_neg hab, if_pos hba] at h1
        simp at h1
      · by_cases hcb : c.toNat < b.toNat
        · rw [if_neg hbc, if_pos hcb] at h2
          simp at h2
        · rw [if_neg hab, if_neg hba] at h1
          rw [if_neg hbc, if_neg hcb] at h2
          rw [if_neg (by omega), if_neg (by omega)]
          exact charListLeb_trans as bs cs h1 h2

theorem strLE_trans {a b c : String} (h₁ : strLE a b) (h₂ : strLE b c) : strLE a c :=
  charListLeb_trans a.data b.data c.data h₁ h₂

instance : IsTotal String strLE := ⟨fun a b => charListLeb_total a.data b.data⟩

instance : IsTrans String strLE := ⟨fun _ _ _ h h' => strLE_trans h h'⟩

/-- The distinct values of a key column in ascending order: pandas
`groupby(col)` iterates its groups sorted by key (`sort=True` is the
default). -/
def sortedKeys (keys : List String) : List String :=
  keys.dedup.insertionSort strLE

/-- Line 237-238: `filtered_df.groupby("Item Purchased")` followed by `.size()`
(line 238): one `(item, occurrence count)` pair per distinct item, in
ascending item order. -/
def groupSizes (rows : List Record) : List (String × Nat) :=
  (sortedKeys (rows.map (fun r => r.itemPurchased))).map
    (fun it => (it, rows.countP (fun r => r.itemPurchased == it)))

/-- Model of `Series.sort_values(ascending=False)` (line 238): pandas
argsorts the values ascending and reverses the result.  The default
quicksort is unstable, so the program does not fix the order of tied
values; the model determinizes the ascending sort as stable (on at
most 16 elements numpy argsort is its stable insertion sort, so the
model is exact there), and theorems assert only tie-independent
properties. -/
def sortCountsDescending (pairs : List (String × Nat)) : List (String × Nat) :=
  (pairs.insertionSort cntLE).reverse

/-- Line 238: `grouped.size().sort_values(ascending=False).head(3)`. -/
def top_items (rows : List Record) : List (String × Nat) :=
  (sortCountsDescending (groupSizes rows)).take 3

/-- Line 239/242: the mean `Review Rating` of the rows of one item
(`grouped["Review Rating"].mean()` looked up at that item). -/
def item_avg_rating (rows : List Record) (item : String) : ℚ :=
  avg_rating (rows.filter (fun r => r.itemPurchased == item))

/-- Lines 148-153: `filtered_df.nsmallest(15, 'Previous Purchases')`
projected to `(Customer ID, Location, Previous Purchases)`.
`nsmallest` with the default `keep="first"` is a stable ascending
sort by the key followed by taking the first 15 rows. -/
def loyalty_laggards (rows : List Record) : List (Nat × String × Nat) :=
  ((rows.insertionSort prevLE).take 15).map
    (fun r => (r.customerId, r.location, r.previousPurchases))

/-- Lines 132-137: `filtered_df.groupby('Location')['Purchase Amount
(USD)'].sum().sort_values(ascending=False)`. -/
def location_sales (rows : List Record) : List (String × ℚ) :=
  (((sortedKeys (rows.map (fun r => r.location))).map
      (fun loc => (loc, total_sales (rows.filter (fun r => r.location == loc))))).insertionSort
    ratLE).reverse

/-- The distinct values of a column in first-occurrence order, the
iteration order of the hash table behind `value_counts`. -/
def firstOccurrences (keys : List String) : List String :=
  keys.foldl (fun acc k => if k ∈ acc then acc else acc ++ [k]) []

/-- Lines 141-146: `filtered_df['Color'].value_counts()`: counts per
distinct colour, sorted descending by count (again modelled as the
reversal of a stable ascending sort). -/
def color_counts (rows : List Record) : List (String × Nat) :=
  (((firstOccurrences (rows.map (fun r => r.color))).map
      (fun c => (c, rows.countP (fun r => r.color == c)))).insertionSort cntLE).reverse

/-- Which optional columns are present in the loaded CSV.  The loader
only dies when `Age`, `Gender`, `Category` or `Season` are missing
(lines 29, 56, 68, 73), so a running session can lack exactly the
columns below; every listed field mirrors one `'X' in
filtered_df.columns` test or unguarded `filtered_df['X']` access. -/
structure Schema where
  purchaseAmount : Bool
  reviewRating : Bool
  itemPurchased : Bool
  color : Bool
  location : Bool
  previousPurchases : Bool
  customerId : Bool
deriving DecidableEq, Repr

/-- The schema of the documented input file, with every column present. -/
def fullSchema : Schema :=
  { purchaseAmount := true, reviewRating := true, itemPurchased := true, color := true,
    location := true, previousPurchases := true, customerId := true }

/-- The structured content of the summary panel built by
`analyze_data` (lines 224-245).  `none` stands for the `"N/A"` /
fallback texts shown when a column is absent. -/
structure Summary where
  totalSales : ℚ
  avgRating : Option ℚ
  topAgeGroup : Option String
  recItems : Option (List (String × Nat × Option ℚ))
  totalRecords : Nat
deriving DecidableEq, Repr

/-- The summary computation of `analyze_data` (lines 224-245) over an
already-filtered, non-empty frame.  Line 225 reads
`filtered_df['Purchase Amount (USD)']` without a presence check, so a
missing column raises a pandas `KeyError` (modelled as
`Except.error`); `Review Rating` (line 226/239) and `Item Purchased`
(line 236) are presence-checked and degrade to `"N/A"` texts. -/
def summarize (sch : Schema) (rows : List Record) : Except String Summary :=
  if sch.purchaseAmount then
    .ok
      { totalSales := total_sales rows
        avgRating := if sch.reviewRating then some (avg_rating rows) else none
        topAgeGroup := top_age_group rows
        recItems :=
          if sch.itemPurchased then
            some ((top_items rows).map
              (fun p => (p.1, p.2, if sch.reviewRating then some (item_avg_rating rows p.1) else none)))
          else none
        totalRecords := rows.length }
  else .error "KeyError: Purchase Amount (USD)"

/-- The tri-state outcome of one `analyze_data` run: either the
empty-filter warning path (lines 215-220) or a computed summary. -/
inductive AnalysisResult where
  | noData
  | summary (s : Summary)
deriving DecidableEq, Repr

/-- The function `analyze_data` (lines 200-245): filter, short-circuit on an empty
result (warning popup, cleared panels, `last_filtered_df` reset), and
otherwise compute the summary payload. -/
def analyze_data (sch : Schema) (rows : List Record) (spec : FilterSpec) :
    Except String AnalysisResult :=
  let filtered := filterRecords rows spec
  if filtered = [] then .ok .noData
  else
    match summarize sch filtered with
    | .error e => .error e
    | .ok s => .ok (.summary s)

/-- The `last_filtered_df` global after one `analyze_data` run: the
empty frame when the filter matched nothing (line 219), otherwise the
filtered frame (line 222). -/
def last_filtered_after (rows : List Record) (spec : FilterSpec) : List Record :=
  let filtered := filterRecords rows spec
  if filtered = [] then [] else filtered

/-- The structured content of the detail popup text built by
`update_details_display` (lines 123-156). -/
inductive ReportPayload where
  | noData
  | locationSales (entries : List (String × ℚ)) (top : String)
  | colorPopularity (entries : List (String × Nat)) (top : String)
  | loyaltyLaggards (entries : List (Nat × String × Nat))
  | missingColumns
  | unsupported
deriving DecidableEq, Repr

/-- The data processing of `update_details_display` (lines 123-156),
dispatching on `option`.  The location and colour branches test the
columns they need (lines 132, 141) and fall back to a message, while
the laggards branch reads `Previous Purchases`, `Customer ID` and
`Location` unguarded (lines 150-153), so their absence raises a
pandas `KeyError` (modelled as `Except.error`). -/
def update_details_display (sch : Schema) (rows : List Record) (option : String) :
    Except String ReportPayload :=
  if rows = [] then .ok .noData
  else if option = "Location" then
    if sch.purchaseAmount ∧ sch.location then
      .ok (.locationSales (location_sales rows) ((location_sales rows).headD ("", 0)).1)
    else .ok .missingColumns
  else if option = "Color" ∧ sch.color then
    .ok (.colorPopularity (color_counts rows) ((color_counts rows).headD ("", 0)).1)
  else if option = "Least Purchases" then
    if ¬sch.previousPurchases then .error "KeyError: Previous Purchases"
    else if ¬sch.customerId then .error "KeyError: Customer ID"
    else if ¬sch.location then .error "KeyError: Location"
    else .ok (.loyaltyLaggards (loyalty_laggards rows))
  else .ok .unsupported

theorem foldr_max_mem (l : List Nat) (h : l ≠ []) : l.foldr max 0 ∈ l := by
  induction l with
  | nil => exact absurd rfl h
  | cons a t ih =>
    rcases eq_or_ne t [] with rfl | hne
    · simp
    · rcases Nat.le_total (t.foldr max 0) a with hle | hle
      · rw [List.foldr_cons, Nat.max_eq_left hle]
        exact List.mem_cons_self a t
      · rw [List.foldr_cons, Nat.max_eq_right hle]
        exact List.mem_cons_of_mem a (ih hne)

theorem le_foldr_max (l : List Nat) (x : Nat) (hx : x ∈ l) : x ≤ l.foldr max 0 := by
  induction l with
  | nil => cases hx
  | cons a t ih =>
    simp only [List.foldr_cons]
    rcases List.mem_cons.mp hx with rfl | hx'
    · exact Nat.le_max_left _ _
    · exact le_trans (ih hx') (Nat.le_max_right _ _)

theorem currentAgeGroup_isSome_of_range {a : Int} (h0 : 0 ≤ a) (h100 : a ≤ 100) :
    (currentAgeGroup a).isSome := by
  unfold currentAgeGroup
  split_ifs <;> first | rfl | omega

theorem currentAgeGroup_eq_none_of_gt_100 {a : Int} (h : 100 < a) :
    currentAgeGroup a = none := by
  unfold currentAgeGroup
  split_ifs <;> first | rfl | omega

/-- C2: the totalSales of a produced summary equals the sum of
`purchaseAmount` over exactly the records satisfying the conjunction
of all active predicates (gender, age range, category, season) of the
spec. -/
theorem total_sales_conservation (sch : Schema) (rows : List Record) (spec : FilterSpec)
    (s : Summary) (h : analyze_data sch rows spec = .ok (.summary s)) :
    s.totalSales = ((rows.filter (matchesSpec spec)).map (fun r => r.purchaseAmount)).sum := by
  unfold analyze_data at h
  by_cases hempty : filterRecords rows spec = []
  · rw [if_pos hempty] at h
    simp at h
  · rw [if_neg hempty] at h
    unfold summarize at h
    by_cases hpa : sch.purchaseAmount = true
    · rw [if_pos hpa] at h
      simp only [Except.ok.injEq, AnalysisResult.summary.injEq] at h
      rw [← h]
      rw [filterRecords_eq_filter] at *
      rfl
    · rw [if_neg hpa] at h
      cases h

/-- C7: a filter spec matching zero records short-circuits the
pipeline: `analyze_data` returns the explicit no-data outcome without
invoking the summary aggregation, clears `last_filtered_df`, and a
subsequent detail-report request on that cleared state returns the
sentinel no-data payload for every report option; all of this is
returned as data, not raised. -/
theorem empty_filter_short_circuit (sch : Schema) (rows : List Record) (spec : FilterSpec)
    (h : filterRecords rows spec = []) :
    analyze_data sch rows spec = .ok .noData
    ∧ last_filtered_after rows spec = []
    ∧ ∀ opt, update_details_display sch (last_filtered_after rows spec) opt = .ok .noData := by
  refine ⟨?_, ?_, fun opt => ?_⟩ <;>
    simp [analyze_data, last_filtered_after, update_details_display, h]

/-- C5: on a non-empty filtered set of records whose ages are in the
expected 0..100 range, the reported top age bucket is a bucket of
maximal frequency, where each record's bucket is recomputed fresh
from its age by the fixed six-interval classification, and that
recomputation agrees with the load-time bucketing on every age. -/
theorem top_age_group_is_mode (rows : List Record) (hne : rows ≠ [])
    (hage : ∀ r ∈ rows, 0 ≤ r.age ∧ r.age ≤ 100) :
    (∃ l, top_age_group rows = some l ∧ l ∈ age_labels ∧
        ∀ l' ∈ age_labels, bucketCount rows l' ≤ bucketCount rows l)
    ∧ (∀ a : Int, currentAgeGroup a = ageGroupLoad a)
    ∧ (∀ a : Int,
        (currentAgeGroup a = some "<25" ↔ 0 ≤ a ∧ a ≤ 25) ∧
        (currentAgeGroup a = some "25–35" ↔ 25 < a ∧ a ≤ 35) ∧
        (currentAgeGroup a = some "35–45" ↔ 35 < a ∧ a ≤ 45) ∧
        (currentAgeGroup a = some "45–55" ↔ 45 < a ∧ a ≤ 55) ∧
        (currentAgeGroup a = some "55–65" ↔ 55 < a ∧ a ≤ 65) ∧
        (currentAgeGroup a = some "65+" ↔ 65 < a ∧ a ≤ 100)) := by
  refine ⟨?_, fun a => rfl, fun a => ?_⟩
  · have hguard : 0 < rows.countP (fun r => (ageGroupLoad r.age).isSome) := by
      rcases rows with _ | ⟨r, rest⟩
      · exact absurd rfl hne
      · refine List.countP_pos_iff.mpr ⟨r, List.mem_cons_self r rest, ?_⟩
        have := hage r (List.mem_cons_self r rest)
        exact currentAgeGroup_isSome_of_range this.1 this.2
    set m := (age_labels.map (bucketCount rows)).foldr max 0 with hm
    have hmem : m ∈ age_labels.map (bucketCount rows) :=
      foldr_max_mem _ (by simp [age_labels])
    obtain ⟨l₀, hl₀, hc₀⟩ := List.mem_map.mp hmem
    have hfind : (age_labels.find? (fun l => bucketCount rows l == m)).isSome := by
      refine List.find?_isSome.mpr ⟨l₀, hl₀, ?_⟩
      simp [hc₀]
    obtain ⟨l, hl⟩ := Option.isSome_iff_exists.mp hfind
    refine ⟨l, ?_, List.mem_of_find?_eq_some hl, fun l' hl' => ?_⟩
    · unfold top_age_group
      rw [if_pos hguard, ← hm, hl]
    · have hlc : bucketCount rows l = m := by
        have := List.find?_some hl
        simpa using this
      rw [hlc]
      exact le_foldr_max _ _ (List.mem_map.mpr ⟨l', hl', rfl⟩)
  · unfold currentAgeGroup
    split_ifs <;>
      refine ⟨?_, ?_, ?_, ?_, ?_, ?_⟩ <;> simp <;> omega

/-- C10: a record with age strictly greater than 100 falls outside
all six age buckets, contributes to no bucket count, and removing it
from any position of a record set leaves the reported top age bucket
unchanged. -/
theorem over_100_no_bucket (a : Int) (ha : 100 < a) (l₁ l₂ : List Record) (r : Record)
    (hr : 100 < r.age) :
    currentAgeGroup a = none
    ∧ (∀ lab, bucketCount (l₁ ++ r :: l₂) lab = bucketCount (l₁ ++ l₂) lab)
    ∧ top_age_group (l₁ ++ r :: l₂) = top_age_group (l₁ ++ l₂) := by
  have hnone : currentAgeGroup r.age = none := currentAgeGroup_eq_none_of_gt_100 hr
  have hbc : ∀ lab, bucketCount (l₁ ++ r :: l₂) lab = bucketCount (l₁ ++ l₂) lab := by
    intro lab
    unfold bucketCount
    simp [List.countP_append, List.countP_cons, hnone]
  refine ⟨currentAgeGroup_eq_none_of_gt_100 ha, hbc, ?_⟩
  have hbcf : bucketCount (l₁ ++ r :: l₂) = bucketCount (l₁ ++ l₂) := funext hbc
  have hguard : (l₁ ++ r :: l₂).countP (fun x => (ageGroupLoad x.age).isSome)
      = (l₁ ++ l₂).countP (fun x => (ageGroupLoad x.age).isSome) := by
    have : ageGroupLoad r.age = none := currentAgeGroup_eq_none_of_gt_100 hr
    simp [List.countP_append, List.countP_cons, this]
  unfold top_age_group
  rw [hbcf, hguard]

theorem sortCountsDescending_pairwise_counts (pairs : List (String × Nat)) :
    (sortCountsDescending pairs).Pairwise (fun a b => b.2 ≤ a.2) := by
  unfold sortCountsDescending
  exact List.pairwise_reverse.mpr ((List.sorted_insertionSort cntLE pairs).imp (fun h => h))

theorem mem_groupSizes {rows : List Record} {p : String × Nat} (hp : p ∈ groupSizes rows) :
    p.2 = rows.countP (fun r => r.itemPurchased == p.1)
    ∧ p.1 ∈ rows.map (fun r => r.itemPurchased) := by
  unfold groupSizes at hp
  obtain ⟨it, hit, rfl⟩ := List.mem_map.mp hp
  refine ⟨rfl, ?_⟩
  unfold sortedKeys at hit
  exact List.mem_dedup.mp ((List.mem_insertionSort _).mp hit)

/-- C3 (amended): the top-items list consists of the (at most) 3
distinct items of the filtered set with the highest occurrence
counts, listed in descending count order, each carrying its
occurrence count; the order among tied counts is implementation-
defined (an unstable quicksort argsort over the alphabetically
sorted group keys) and is in particular not the first-encountered
order; the summary pairs each listed item with the mean review
rating over that item's rows. -/
theorem top_items_spec (rows : List Record) :
    (top_items rows).Pairwise (fun a b => b.2 ≤ a.2)
    ∧ (∀ p ∈ top_items rows, p.2 = rows.countP (fun r => r.itemPurchased == p.1)
        ∧ p.1 ∈ rows.map (fun r => r.itemPurchased))
    ∧ (top_items rows).length = min 3 (sortedKeys (rows.map (fun r => r.itemPurchased))).length
    ∧ (∀ q ∈ groupSizes rows, q.1 ∉ (top_items rows).map Prod.fst →
        ∀ p ∈ top_items rows, q.2 ≤ p.2)
    ∧ (∀ s, summarize fullSchema rows = .ok s →
        s.recItems = some ((top_items rows).map
          (fun p => (p.1, p.2, some (item_avg_rating rows p.1))))) := by
  have hmemL : ∀ p ∈ top_items rows, p ∈ groupSizes rows := by
    intro p hp
    have h1 : p ∈ sortCountsDescending (groupSizes rows) := List.mem_of_mem_take hp
    unfold sortCountsDescending at h1
    rw [List.mem_reverse] at h1
    exact (List.mem_insertionSort _).mp h1
  refine ⟨?_, ?_, ?_, ?_, ?_⟩
  · exact (sortCountsDescending_pairwise_counts _).sublist (List.take_sublist _ _)
  · exact fun p hp => mem_groupSizes (hmemL p hp)
  · unfold top_items sortCountsDescending groupSizes
    simp [List.length_take]
  · intro q hq hq1 p hp
    have hqL : q ∈ sortCountsDescending (groupSizes rows) := by
      unfold sortCountsDescending
      rw [List.mem_reverse]
      exact (List.mem_insertionSort _).mpr hq
    have hsplit := List.take_append_drop 3 (sortCountsDescending (groupSizes rows))
    have hpw : ((sortCountsDescending (groupSizes rows)).take 3
        ++ (sortCountsDescending (groupSizes rows)).drop 3).Pairwise
        (fun a b => b.2 ≤ a.2) := by
      rw [hsplit]
      exact sortCountsDescending_pairwise_counts _
    have hrel := (List.pairwise_append.mp hpw).2.2
    have hqdrop : q ∈ (sortCountsDescending (groupSizes rows)).drop 3 := by
      rcases List.mem_append.mp (hsplit ▸ hqL) with hin | hout
      · exact absurd (List.mem_map.mpr ⟨q, hin, rfl⟩) hq1
      · exact hout
    exact hrel p hp q hqdrop
  · intro s hs
    unfold summarize at hs
    simp only [fullSchema, if_true] at hs
    simp only [Except.ok.injEq] at hs
    rw [← hs]

theorem filter_orderedInsert_prev (k : Nat) (p : Record) (l : List Record) :
    (List.orderedInsert prevLE p l).filter (fun r => r.previousPurchases == k)
      = if p.previousPurchases == k
        then p :: l.filter (fun r => r.previousPurchases == k)
        else l.filter (fun r => r.previousPurchases == k) := by
  induction l with
  | nil => simp [List.orderedInsert, List.filter_cons]
  | cons q qs ih =>
    rw [List.orderedInsert]
    by_cases hle : prevLE p q
    · rw [if_pos hle]
      simp [List.filter_cons]
    · rw [if_neg hle]
      have hqp : q.previousPurchases < p.previousPurchases := by
        have h' : ¬p.previousPurchases ≤ q.previousPurchases := hle
        omega
      by_cases hq : q.previousPurchases = k
      · have hpk : ¬p.previousPurchases = k := by omega
        simp [List.filter_cons, hq, hpk, ih]
      · simp [List.filter_cons, hq, ih]

theorem filter_insertionSort_prev (k : Nat) (l : List Record) :
    (l.insertionSort prevLE).filter (fun r => r.previousPurchases == k)
      = l.filter (fun r => r.previousPurchases == k) := by
  induction l with
  | nil => rfl
  | cons p ps ih =>
    rw [List.insertionSort, filter_orderedInsert_prev, ih, List.filter_cons]

/-- C4: the loyalty-laggards report consists of the 15 records with
the smallest `previousPurchases` (all records when fewer than 15
remain), as (customerId, location, previousPurchases) triples listed
ascending by `previousPurchases`, with ties kept in their original
relative order (the underlying partial sort is stable). -/
theorem loyalty_laggards_spec (rows : List Record) :
    (loyalty_laggards rows).length = min 15 rows.length
    ∧ (loyalty_laggards rows).Pairwise (fun a b => a.2.2 ≤ b.2.2)
    ∧ List.Perm (rows.insertionSort prevLE) rows
    ∧ (∀ k, (rows.insertionSort prevLE).filter (fun r => r.previousPurchases == k)
          = rows.filter (fun r => r.previousPurchases == k))
    ∧ (∀ x ∈ (rows.insertionSort prevLE).drop 15, ∀ y ∈ (rows.insertionSort prevLE).take 15,
        y.previousPurchases ≤ x.previousPurchases)
    ∧ (rows.length ≤ 15 → loyalty_laggards rows
          = (rows.insertionSort prevLE).map
              (fun r => (r.customerId, r.location, r.previousPurchases))) := by
  refine ⟨?_, ?_, List.perm_insertionSort _ _, fun k => filter_insertionSort_prev k rows,
    ?_, ?_⟩
  · unfold loyalty_laggards
    rw [List.length_map, List.length_take, List.length_insertionSort]
  · unfold loyalty_laggards
    refine List.pairwise_map.mpr ?_
    exact ((List.sorted_insertionSort prevLE rows).sublist (List.take_sublist _ _)).imp
      (fun h => h)
  · intro x hx y hy
    have hsplit := List.take_append_drop 15 (rows.insertionSort prevLE)
    have hpw : ((rows.insertionSort prevLE).take 15
        ++ (rows.insertionSort prevLE).drop 15).Pairwise prevLE := by
      rw [hsplit]
      exact List.sorted_insertionSort prevLE rows
    exact (List.pairwise_append.mp hpw).2.2 y hy x hx
  · intro hlen
    unfold loyalty_laggards
    rw [List.take_of_length_le (by rw [List.length_insertionSort]; exact hlen)]

/-- One spec having the same constraints as another plus exactly one
additional active constraint. -/
def addsOneConstraint (s₁ s₂ : FilterSpec) : Prop :=
  (s₁.gender = "All" ∧ s₂.gender ≠ "All" ∧ s₂ = { s₁ with gender := s₂.gender })
  ∨ (s₁.ageRange = "All" ∧ s₂.ageRange ≠ "All" ∧ s₂ = { s₁ with ageRange := s₂.ageRange })
  ∨ (s₁.category = "All" ∧ s₂.category ≠ "All" ∧ s₂ = { s₁ with category := s₂.category })
  ∨ (s₁.season = "All" ∧ s₂.season ≠ "All" ∧ s₂ = { s₁ with season := s₂.season })

/-- C9: a spec with one additional active constraint filters to a
subset of what the weaker spec filters to. -/
theorem filter_monotone (rows : List Record) (s₁ s₂ : FilterSpec)
    (h : addsOneConstraint s₁ s₂) :
    filterRecords rows s₂ ⊆ filterRecords rows s₁ := by
  intro r hr
  rw [filterRecords_eq_filter, List.mem_filter] at hr ⊢
  refine ⟨hr.1, ?_⟩
  have h2 := hr.2
  simp only [matchesSpec, Bool.and_eq_true] at h2 ⊢
  obtain ⟨⟨⟨hg, ha⟩, hc⟩, hs⟩ := h2
  rcases h with ⟨hAll, -, hEq⟩ | ⟨hAll, -, hEq⟩ | ⟨hAll, -, hEq⟩ | ⟨hAll, -, hEq⟩
  · have e2 : s₂.ageRange = s₁.ageRange := by rw [hEq]
    have e3 : s₂.category = s₁.category := by rw [hEq]
    have e4 : s₂.season = s₁.season := by rw [hEq]
    exact ⟨⟨⟨by simp [hAll], e2 ▸ ha⟩, e3 ▸ hc⟩, e4 ▸ hs⟩
  · have e1 : s₂.gender = s₁.gender := by rw [hEq]
    have e3 : s₂.category = s₁.category := by rw [hEq]
    have e4 : s₂.season = s₁.season := by rw [hEq]
    exact ⟨⟨⟨e1 ▸ hg, by simp [matchesAge, hAll]⟩, e3 ▸ hc⟩, e4 ▸ hs⟩
  · have e1 : s₂.gender = s₁.gender := by rw [hEq]
    have e2 : s₂.ageRange = s₁.ageRange := by rw [hEq]
    have e4 : s₂.season = s₁.season := by rw [hEq]
    exact ⟨⟨⟨e1 ▸ hg, e2 ▸ ha⟩, by simp [hAll]⟩, e4 ▸ hs⟩
  · have e1 : s₂.gender = s₁.gender := by rw [hEq]
    have e2 : s₂.ageRange = s₁.ageRange := by rw [hEq]
    have e3 : s₂.category = s₁.category := by rw [hEq]
    exact ⟨⟨⟨e1 ▸ hg, e2 ▸ ha⟩, e3 ▸ hc⟩, by simp [hAll]⟩

/-- C8 (amended): with the unguarded columns present (`Purchase
Amount (USD)` for the summary, `Previous Purchases` / `Customer ID` /
`Location` for the laggards report), the summary aggregator and the
detail-report engine return a value for every record set and report
option instead of raising, and an absent `Review Rating` or `Item
Purchased` column only degrades its dependent summary entries to the
unavailable marker. -/
theorem pipeline_total_when_core_columns (sch : Schema) (rows : List Record) (opt : String)
    (hpa : sch.purchaseAmount = true) (hpp : sch.previousPurchases = true)
    (hcid : sch.customerId = true) (hloc : sch.location = true) :
    (∃ s, summarize sch rows = .ok s
        ∧ (s.avgRating = none ↔ sch.reviewRating = false)
        ∧ (s.recItems = none ↔ sch.itemPurchased = false)
        ∧ s.totalSales = total_sales rows)
    ∧ (∃ p, update_details_display sch rows opt = .ok p) := by
  constructor
  · unfold summarize
    rw [if_pos hpa]
    refine ⟨_, rfl, ?_, ?_, rfl⟩
    · by_cases hrr : sch.reviewRating = true <;> simp [hrr]
    · by_cases hip : sch.itemPurchased = true <;> simp [hip]
  · unfold update_details_display
    split_ifs <;> first | exact ⟨_, rfl⟩ | simp_all

/-- A fixture row: a female customer, age 30, item `"A"`. -/
def demoRecF : Record :=
  { customerId := 1, gender := "F", age := 30, category := "Shoes", season := "Spring",
    itemPurchased := "A", color := "Red", location := "NY", purchaseAmount := 50,
    reviewRating := 4, previousPurchases := 3 }

/-- A fixture row: a male customer, age 40, item `"B"`. -/
def demoRecM : Record :=
  { customerId := 2, gender := "M", age := 40, category := "Shoes", season := "Spring",
    itemPurchased := "B", color := "Blue", location := "LA", purchaseAmount := 30,
    reviewRating := 3, previousPurchases := 1 }

/-- A fixture row: a female customer, age 22, item `"C"`. -/
def demoRecC : Record :=
  { customerId := 3, gender := "F", age := 22, category := "Hats", season := "Winter",
    itemPurchased := "C", color := "Red", location := "NY", purchaseAmount := 20,
    reviewRating := 5, previousPurchases := 7 }

/-- A fixture row with an age outside every bucket. -/
def demoRecOld : Record :=
  { customerId := 4, gender := "F", age := 150, category := "Hats", season := "Winter",
    itemPurchased := "C", color := "Red", location := "NY", purchaseAmount := 10,
    reviewRating := 2, previousPurchases := 2 }

/-- The fixture record set; its items appear in the order A, B, C. -/
def demoRows : List Record := [demoRecF, demoRecM, demoRecC]

/-- A spec keeping only female customers. -/
def demoSpecF : FilterSpec :=
  { gender := "F", ageRange := "All", category := "All", season := "All" }

/-- A spec matching no fixture record. -/
def demoSpecNone : FilterSpec :=
  { gender := "X", ageRange := "All", category := "All", season := "All" }

/-- The summary computed for the fixture rows filtered to `"F"`. -/
def demoSummaryF : Summary :=
  { totalSales := 70, avgRating := some (9 / 2), topAgeGroup := some "<25",
    recItems := some [("C", 1, some 5), ("A", 1, some 4)], totalRecords := 2 }

theorem total_sales_conservation_witness :
    demoSummaryF.totalSales
      = ((demoRows.filter (matchesSpec demoSpecF)).map (fun r => r.purchaseAmount)).sum := by
  refine total_sales_conservation fullSchema demoRows demoSpecF demoSummaryF ?_
  have hfilter : filterRecords demoRows demoSpecF = [demoRecF, demoRecC] := rfl
  have hA : [demoRecF, demoRecC].filter (fun r => r.itemPurchased == "A") = [demoRecF] := rfl
  have hC : [demoRecF, demoRecC].filter (fun r => r.itemPurchased == "C") = [demoRecC] := rfl
  have h70 : total_sales [demoRecF, demoRecC] = 70 := by
    norm_num [total_sales, demoRecF, demoRecC]
  have havg : avg_rating [demoRecF, demoRecC] = 9 / 2 := by
    norm_num [avg_rating, demoRecF, demoRecC]
  have hia : item_avg_rating [demoRecF, demoRecC] "A" = 4 := by
    rw [item_avg_rating, hA]
    norm_num [avg_rating, demoRecF]
  have hic : item_avg_rating [demoRecF, demoRecC] "C" = 5 := by
    rw [item_avg_rating, hC]
    norm_num [avg_rating, demoRecC]
  have htop : top_items [demoRecF, demoRecC] = [("C", 1), ("A", 1)] := rfl
  have htag : top_age_group [demoRecF, demoRecC] = some "<25" := rfl
  have hsum : summarize fullSchema [demoRecF, demoRecC] = .ok demoSummaryF := by
    simp [summarize, fullSchema, htop, htag, h70, havg, hia, hic, demoSummaryF]
  simp only [analyze_data]
  rw [hfilter, if_neg (by simp), hsum]

theorem empty_filter_short_circuit_witness :
    analyze_data fullSchema demoRows demoSpecNone = .ok .noData
    ∧ update_details_display fullSchema (last_filtered_after demoRows demoSpecNone) "Location"
        = .ok .noData := by
  have h := empty_filter_short_circuit fullSchema demoRows demoSpecNone (by rfl)
  exact ⟨h.1, h.2.2 "Location"⟩

theorem top_age_group_is_mode_witness :
    ∃ l, top_age_group demoRows = some l ∧ l ∈ age_labels ∧
      ∀ l' ∈ age_labels, bucketCount demoRows l' ≤ bucketCount demoRows l :=
  (top_age_group_is_mode demoRows (by simp [demoRows])
    (by norm_num [demoRows, demoRecF, demoRecM, demoRecC])).1

theorem over_100_no_bucket_witness :
    currentAgeGroup 150 = none
    ∧ top_age_group (demoRows ++ demoRecOld :: []) = top_age_group (demoRows ++ []) := by
  have h := over_100_no_bucket 150 (by decide) demoRows [] demoRecOld (by decide)
  exact ⟨h.1, h.2.2⟩

/-- On three tied items, numpy argsort is its stable insertion sort,
so the model computes exactly what the program does: items seen in
the order A, B, C all with count 1 come out as C, B, A, refuting a
first-encountered tie order. -/
theorem top_items_tie_order_counterexample :
    demoRows.map (fun r => r.itemPurchased) = ["A", "B", "C"]
    ∧ top_items demoRows = [("C", 1), ("B", 1), ("A", 1)]
    ∧ top_items demoRows ≠ [("A", 1), ("B", 1), ("C", 1)] := by
  refine ⟨rfl, rfl, ?_⟩
  rw [(show top_items demoRows = [("C", 1), ("B", 1), ("A", 1)] from rfl)]
  decide

theorem top_items_spec_witness :
    ("B", 1).2 = demoRows.countP (fun r => r.itemPurchased == "B") := by
  have h := (top_items_spec demoRows).2.1
  refine (h ("B", 1) ?_).1
  rw [(show top_items demoRows = [("C", 1), ("B", 1), ("A", 1)] from rfl)]
  decide

theorem loyalty_laggards_spec_witness :
    loyalty_laggards demoRows
      = (demoRows.insertionSort prevLE).map
          (fun r => (r.customerId, r.location, r.previousPurchases)) :=
  (loyalty_laggards_spec demoRows).2.2.2.2.2 (by decide)

/-- A schema whose `Previous Purchases` column is absent. -/
def schemaNoPrev : Schema := { fullSchema with previousPurchases := false }

/-- A schema whose `Purchase Amount (USD)` column is absent. -/
def schemaNoAmount : Schema := { fullSchema with purchaseAmount := false }

theorem pipeline_raises_counterexample :
    update_details_display schemaNoPrev demoRows "Least Purchases"
        = .error "KeyError: Previous Purchases"
    ∧ summarize schemaNoAmount demoRows = .error "KeyError: Purchase Amount (USD)" := by
  constructor <;> rfl

theorem pipeline_total_when_core_columns_witness :
    ∃ p, update_details_display
        { fullSchema with reviewRating := false, itemPurchased := false, color := false }
        demoRows "Color" = .ok p :=
  (pipeline_total_when_core_columns _ demoRows "Color" rfl rfl rfl rfl).2

theorem filter_monotone_witness :
    demoRecF ∈ filterRecords demoRows unconstrainedSpec :=
  filter_monotone demoRows unconstrainedSpec demoSpecF
    (Or.inl ⟨rfl, by decide, rfl⟩)
    (by rw [(show filterRecords demoRows demoSpecF = [demoRecF, demoRecC] from rfl)]
        exact List.mem_cons_self _ _)

end Pro8
